import Mathlib

/-!
# Verification of the google_reviews_mapper geospatial pipeline

Shallow embedding of the computational core of the repository:

* `src/gps/tools.py` and `src/google_reviews_mapper/gps/tools.py`
  (coordinate math, grid generation, region filtering),
* `src/google_reviews_mapper/transform/tools.py`
  (normalisation, deduplication, chain aggregation),
* `src/google_reviews_mapper/get_restaurants.py` (`download_data` region branch).

Modelling conventions:

* Python floats are modelled as exact rationals (`ℚ`).  The source passes
  coordinates around as `"lat, lon"` strings; parsing (`float`) and
  formatting (`f"{x}"`, Python `repr`) round-trip injectively on floats, so a
  location is modelled directly as the coordinate pair and the string
  conversion as the identity.
* The two transcendental constants the source uses, the float `180 / math.pi`
  and the float function `x ↦ math.cos(x * math.pi / 180)`, are bundled in a
  `RealModel` parameter: every theorem below holds for an arbitrary model, and
  concrete witnesses instantiate it.  Note `math.cos` never returns exactly
  `0.0` at these arguments (its zeros are irrational, e.g.
  `math.cos(90 * math.pi / 180) ≈ 6.12e-17`), so the division in
  `add_to_longitude` never raises in Python; in `ℚ` division by zero is total
  anyway.
* Fallible library calls (`pandas.concat` on an empty list, reading an
  unassigned Python local) are modelled with `Except`/`Option`.
-/

/-- A location: latitude and longitude in degrees.  The source represents it
as the string `f"{lat}, {lon}"`; we model it as the exact coordinate pair. -/
abbrev Loc : Type := ℚ × ℚ

/-- The float constants of the source's coordinate math: `degPerRad` stands
for the Python float `180 / math.pi`, and `cosdeg x` for
`math.cos(x * math.pi / 180)`. -/
structure RealModel where
  degPerRad : ℚ
  cosdeg : ℚ → ℚ

/-- Function `add_to_latitude` from `gps/tools.py` (identical in both copies):
`new_lat = start_lat + (meters_diff / 1000 / 6378) * (180 / math.pi)`. -/
def add_to_latitude (M : RealModel) (start_lat : ℚ) (meters_diff : ℤ) : ℚ :=
  let km_diff : ℚ := (meters_diff : ℚ) / 1000
  start_lat + km_diff / 6378 * M.degPerRad

/-- Function `add_to_longitude` from `gps/tools.py` (identical in both copies):
`new_lon = start_lon + (meters_diff / 1000 / 6378) * (180 / math.pi)
            / math.cos(start_lat * math.pi / 180)`.
The source performs no domain check near the poles; the function is total. -/
def add_to_longitude (M : RealModel) (start_lon start_lat : ℚ) (meters_diff : ℤ) : ℚ :=
  let km_diff : ℚ := (meters_diff : ℚ) / 1000
  start_lon + km_diff / 6378 * M.degPerRad / M.cosdeg start_lat

/-- Python's `range(a, b)` over integers, as the list `[a, a+1, ..., b-1]`
(empty when `b ≤ a`, exactly as in Python). -/
def pyRange (a b : ℤ) : List ℤ :=
  List.map (fun t : ℕ => a + (t : ℤ)) (List.range (b - a).toNat)

/-- The doubly nested loop body of `generate_grid_locs`: for `i, j` in
`range(-iterations, iterations + 1)` it appends the point
`(add_to_latitude(start_lat, i*distance),
  add_to_longitude(start_lon, start_lat, j*distance))`. -/
def gridLoop (M : RealModel) (start_loc : Loc) (distance iterations : ℤ) : List Loc :=
  (pyRange (-iterations) (iterations + 1)).flatMap fun i =>
    (pyRange (-iterations) (iterations + 1)).map fun j =>
      (add_to_latitude M start_loc.1 (i * distance),
       add_to_longitude M start_loc.2 start_loc.1 (j * distance))

/-- Function `generate_grid_locs` from `src/gps/tools.py`: seeds `locs` with the start
location, runs the double loop, and returns `locs` as is (no deduplication in
this copy of the file). -/
def gps.generate_grid_locs (M : RealModel) (start_loc : Loc)
    (distance iterations : ℤ) : List Loc :=
  start_loc :: gridLoop M start_loc distance iterations

/-- Function `generate_grid_locs` from `src/google_reviews_mapper/gps/tools.py`: same
loop, but returns `list(set(locs))`.  Python's set iteration order is
arbitrary; we model the result as `locs.dedup`, which agrees with the source
up to ordering (membership, cardinality and duplicate-freedom coincide). -/
def grm.generate_grid_locs (M : RealModel) (start_loc : Loc)
    (distance iterations : ℤ) : List Loc :=
  (start_loc :: gridLoop M start_loc distance iterations).dedup

/-- Membership in `pyRange` is the interval condition. -/
theorem mem_pyRange {a b x : ℤ} : x ∈ pyRange a b ↔ a ≤ x ∧ x < b := by
  unfold pyRange
  simp only [List.mem_map, List.mem_range]
  constructor
  · rintro ⟨t, ht, rfl⟩
    omega
  · rintro ⟨h1, h2⟩
    exact ⟨(x - a).toNat, by omega, by omega⟩

/-- Length of `pyRange` is `max (b - a) 0`. -/
theorem length_pyRange (a b : ℤ) : (pyRange a b).length = (b - a).toNat := by
  rw [pyRange, List.length_map, List.length_range]

/-- Offsetting by zero metres leaves the latitude unchanged. -/
theorem add_to_latitude_zero (M : RealModel) (lat : ℚ) :
    add_to_latitude M lat 0 = lat := by
  simp [add_to_latitude]

/-- Offsetting by zero metres leaves the longitude unchanged (in `ℚ`,
`0 / c = 0` even for `c = 0`; in Python `math.cos` is never exactly `0.0`
there, so `0.0 / cos` is likewise `0.0`). -/
theorem add_to_longitude_zero (M : RealModel) (lon lat : ℚ) :
    add_to_longitude M lon lat 0 = lon := by
  simp [add_to_longitude]

/-- The `(i = 0, j = 0)` iteration recomputes exactly the start location. -/
theorem gridLoop_center (M : RealModel) (start_loc : Loc) (d : ℤ) :
    (add_to_latitude M start_loc.1 (0 * d),
     add_to_longitude M start_loc.2 start_loc.1 (0 * d)) = start_loc := by
  rw [zero_mul, add_to_latitude_zero, add_to_longitude_zero]

/-- The start location occurs among the loop's computed points whenever the
iteration count is nonnegative. -/
theorem start_mem_gridLoop (M : RealModel) (start_loc : Loc) (d : ℤ) (k : ℕ) :
    start_loc ∈ gridLoop M start_loc d (k : ℤ) := by
  unfold gridLoop
  rw [List.mem_flatMap]
  refine ⟨0, ?_, ?_⟩
  · exact mem_pyRange.mpr (by omega)
  · rw [List.mem_map]
    exact ⟨0, mem_pyRange.mpr (by omega), gridLoop_center M start_loc d⟩

/-- The loop performs exactly `(2 * iterations + 1) ^ 2` coordinate
computations. -/
theorem gridLoop_length (M : RealModel) (start_loc : Loc) (d : ℤ) (k : ℕ) :
    (gridLoop M start_loc d (k : ℤ)).length = (2 * k + 1) ^ 2 := by
  unfold gridLoop
  rw [List.length_flatMap]
  have hlen : (pyRange (-(k : ℤ)) ((k : ℤ) + 1)).length = 2 * k + 1 := by
    rw [length_pyRange]; omega
  have hmap : ∀ i ∈ pyRange (-(k : ℤ)) ((k : ℤ) + 1),
      (List.length ∘ fun i =>
        (pyRange (-(k : ℤ)) ((k : ℤ) + 1)).map fun j =>
          (add_to_latitude M start_loc.1 (i * d),
           add_to_longitude M start_loc.2 start_loc.1 (j * d))) i = 2 * k + 1 := by
    intro i _
    simp only [Function.comp_apply, List.length_map]
    exact hlen
  rw [List.map_congr_left hmap, List.map_const', List.sum_replicate, hlen,
    smul_eq_mul, sq]

/-- Range `pyRange a b` is empty when `b ≤ a` (as Python's `range`). -/
theorem pyRange_eq_nil {a b : ℤ} (h : b ≤ a) : pyRange a b = [] := by
  unfold pyRange
  rw [(by omega : (b - a).toNat = 0)]
  rfl

/-- Deduplicating `a :: l` when every element of `l` equals `a` yields `[a]`. -/
theorem dedup_cons_all_eq {α : Type} [DecidableEq α] (a : α) (l : List α)
    (h : ∀ x ∈ l, x = a) : (a :: l).dedup = [a] := by
  induction l with
  | nil => simp
  | cons b t ih =>
    have hb : b = a := h b (by simp)
    subst hb
    rw [List.dedup_cons_of_mem (l := b :: t) (by simp)]
    exact ih (fun x hx => h x (by simp [hx]))

/-- C1.  For valid parameters (`0 < distance`, `iterations = k ≥ 0`), the loop
of `generate_grid_locs` performs exactly `(2*k+1)^2` coordinate computations;
the deduplicated result of the `google_reviews_mapper` copy has no duplicates,
at most `(2*k+1)^2` elements, and contains the start location; and the raw
result of the `src/gps` copy, viewed as a set, likewise has at most
`(2*k+1)^2` elements and contains the start location. -/
theorem generate_grid_count_dedup_start (M : RealModel) (start_loc : Loc)
    (d : ℤ) (k : ℕ) (hd : 0 < d) :
    (gridLoop M start_loc d (k : ℤ)).length = (2 * k + 1) ^ 2
    ∧ (grm.generate_grid_locs M start_loc d (k : ℤ)).Nodup
    ∧ (grm.generate_grid_locs M start_loc d (k : ℤ)).length ≤ (2 * k + 1) ^ 2
    ∧ start_loc ∈ grm.generate_grid_locs M start_loc d (k : ℤ)
    ∧ (gps.generate_grid_locs M start_loc d (k : ℤ)).toFinset.card ≤ (2 * k + 1) ^ 2
    ∧ start_loc ∈ gps.generate_grid_locs M start_loc d (k : ℤ) := by
  have hmem := start_mem_gridLoop M start_loc d k
  have hlen := gridLoop_length M start_loc d k
  have hsetcard : (start_loc :: gridLoop M start_loc d (k : ℤ)).toFinset.card
      ≤ (2 * k + 1) ^ 2 := by
    rw [List.toFinset_cons, Finset.insert_eq_self.mpr (List.mem_toFinset.mpr hmem)]
    calc (gridLoop M start_loc d (k : ℤ)).toFinset.card
        ≤ (gridLoop M start_loc d (k : ℤ)).length := List.toFinset_card_le _
      _ = (2 * k + 1) ^ 2 := hlen
  refine ⟨hlen, List.nodup_dedup _, ?_, ?_, ?_, List.mem_cons_self _ _⟩
  · rw [grm.generate_grid_locs, ← List.card_toFinset]
    exact hsetcard
  · exact List.mem_dedup.mpr (List.mem_cons_self _ _)
  · rw [gps.generate_grid_locs]
    exact hsetcard

/-- Witness for C1 at a concrete model and input. -/
theorem generate_grid_count_dedup_start_witness :
    (0 : ℤ) < 500
    ∧ ((40 : ℚ), (-111 : ℚ)) ∈
        grm.generate_grid_locs ⟨57, fun _ => 1⟩ (40, -111) 500 1 :=
  ⟨by decide,
   (generate_grid_count_dedup_start ⟨57, fun _ => 1⟩ (40, -111) 500 1
     (by decide)).2.2.2.1⟩

/-- C2.  With `iterations = 0`, the deduplicated `generate_grid_locs` returns
exactly the singleton `[start]`; the loop computes exactly one point, which
coincides with the start; and the raw `src/gps` copy, viewed as a set, is also
the singleton `{start}`. -/
theorem generate_grid_iterations_zero (M : RealModel) (start_loc : Loc) (d : ℤ) :
    grm.generate_grid_locs M start_loc d 0 = [start_loc]
    ∧ gridLoop M start_loc d 0 = [start_loc]
    ∧ (gps.generate_grid_locs M start_loc d 0).toFinset = {start_loc} := by
  have h01 : pyRange (-(0 : ℤ)) ((0 : ℤ) + 1) = [0] := by decide
  have hloop : gridLoop M start_loc d 0 = [start_loc] := by
    unfold gridLoop
    rw [h01]
    simp only [List.flatMap_cons, List.flatMap_nil, List.map_cons, List.map_nil,
      List.append_nil]
    rw [gridLoop_center M start_loc d]
  refine ⟨?_, hloop, ?_⟩
  · rw [grm.generate_grid_locs, hloop,
      List.dedup_cons_of_mem (List.mem_singleton.mpr rfl),
      List.dedup_cons_of_not_mem (List.not_mem_nil _), List.dedup_nil]
  · rw [gps.generate_grid_locs, hloop]
    simp

/-- A concrete instantiation of the float constants, used in counterexamples
and witnesses (the theorems above hold for every model, so any instance is
valid for exhibiting concrete behaviour). -/
def cexModel : RealModel := ⟨57, fun _ => 1⟩

/-- Counterexample to C3.  `generate_grid_locs` performs no argument
validation: called with `distance = 0` and with `iterations = -1` it returns a
grid (a plain list) instead of failing — the source raises no
`InvalidArgument` (or any other) error on these inputs. -/
theorem generate_grid_invalid_args_cex :
    grm.generate_grid_locs cexModel (40, -111) 0 0 = [(40, -111)]
    ∧ grm.generate_grid_locs cexModel (40, -111) 500 (-1) = [(40, -111)] := by
  constructor
  · exact (generate_grid_iterations_zero cexModel (40, -111) 0).1
  · rw [grm.generate_grid_locs]
    rw [show gridLoop cexModel (40, -111) 500 (-1) = [] from by
      unfold gridLoop
      rw [pyRange_eq_nil (by omega)]
      rfl]
    rfl

/-- C3 amended.  `generate_grid_locs` accepts non-positive spacing and
negative iteration counts without error: with `iterations < 0` the loop body
never runs and the result is exactly `[start]`, and with `distance = 0` every
computed point collapses onto the start, so the deduplicated result is again
exactly `[start]`. -/
theorem generate_grid_no_validation (M : RealModel) (start_loc : Loc) (d k : ℤ) :
    (k < 0 → grm.generate_grid_locs M start_loc d k = [start_loc])
    ∧ (d = 0 → grm.generate_grid_locs M start_loc d k = [start_loc]) := by
  constructor
  · intro hk
    rw [grm.generate_grid_locs]
    rw [show gridLoop M start_loc d k = [] from by
      unfold gridLoop
      rw [pyRange_eq_nil (by omega)]
      rfl]
    rfl
  · intro hd
    subst hd
    rw [grm.generate_grid_locs]
    refine dedup_cons_all_eq _ _ ?_
    intro x hx
    rw [gridLoop, List.mem_flatMap] at hx
    obtain ⟨i, _, hx⟩ := hx
    rw [List.mem_map] at hx
    obtain ⟨j, _, rfl⟩ := hx
    rw [mul_zero, mul_zero, add_to_latitude_zero, add_to_longitude_zero]

/-- Witness for the amended C3 at concrete inputs. -/
theorem generate_grid_no_validation_witness :
    ((-1 : ℤ) < 0 ∧ grm.generate_grid_locs cexModel (40, -111) 500 (-1) = [(40, -111)])
    ∧ ((0 : ℤ) = 0 ∧ grm.generate_grid_locs cexModel (40, -111) 0 5 = [(40, -111)]) :=
  ⟨⟨by decide, (generate_grid_no_validation cexModel (40, -111) 500 (-1)).1 (by decide)⟩,
   ⟨rfl, (generate_grid_no_validation cexModel (40, -111) 0 5).2 rfl⟩⟩

/-- A model instance near a pole: `cosdeg 90` is a tiny nonzero rational,
mirroring the Python float `math.cos(90 * math.pi / 180) ≈ 6.12e-17`, which is
small but not exactly zero. -/
def poleModel : RealModel := ⟨57, fun x => if x = 90 then 1 / 10 ^ 17 else 1⟩

/-- Counterexample to C4.  At latitude `90` the longitude-offset computation
returns an ordinary (very large but finite) longitude; `add_to_longitude` has
no error channel at all — the source raises no `GeometryDegenerate` (or any)
domain error, and no division by zero occurs because `math.cos` is nonzero
there. -/
theorem add_to_longitude_pole_cex :
    add_to_longitude poleModel 0 90 500 = 475000000000000000 / 1063 := by
  rw [add_to_longitude]
  norm_num [poleModel]

/-- C4 amended.  `add_to_longitude` performs no domain check: it totally
computes `lon + (m/1000/6378) * (180/π) / cos(lat·π/180)`, and as the cosine
tends to `0` (latitude to `±90°`) the offset exceeds every bound `B` — the
result degenerates to arbitrarily large finite values instead of an error. -/
theorem add_to_longitude_pole_blowup (M : RealModel) (lon lat : ℚ) (m : ℤ)
    (B : ℚ) (hB : 0 < B) (hc : 0 < M.cosdeg lat)
    (hsmall : M.cosdeg lat ≤ (m : ℚ) / 1000 / 6378 * M.degPerRad / B) :
    add_to_longitude M lon lat m
      = lon + (m : ℚ) / 1000 / 6378 * M.degPerRad / M.cosdeg lat
    ∧ B ≤ add_to_longitude M lon lat m - lon := by
  refine ⟨rfl, ?_⟩
  have hKB : M.cosdeg lat * B ≤ (m : ℚ) / 1000 / 6378 * M.degPerRad :=
    (le_div_iff₀ hB).mp hsmall
  have : add_to_longitude M lon lat m - lon
      = (m : ℚ) / 1000 / 6378 * M.degPerRad / M.cosdeg lat := by
    rw [add_to_longitude]
    ring
  rw [this, le_div_iff₀ hc]
  calc B * M.cosdeg lat = M.cosdeg lat * B := mul_comm _ _
    _ ≤ (m : ℚ) / 1000 / 6378 * M.degPerRad := hKB

/-- Witness for the amended C4: with the near-pole cosine of `poleModel`, the
computed longitude offset exceeds `10^10` degrees. -/
theorem add_to_longitude_pole_blowup_witness :
    (0 : ℚ) < 10 ^ 10
    ∧ 0 < poleModel.cosdeg 90
    ∧ poleModel.cosdeg 90
        ≤ ((500 : ℤ) : ℚ) / 1000 / 6378 * poleModel.degPerRad / 10 ^ 10
    ∧ (10 : ℚ) ^ 10 ≤ add_to_longitude poleModel 0 90 500 - 0 :=
  ⟨by norm_num, by norm_num [poleModel], by norm_num [poleModel],
   (add_to_longitude_pole_blowup poleModel 0 90 500 (10 ^ 10)
     (by norm_num) (by norm_num [poleModel]) (by norm_num [poleModel])).2⟩

/-- One row of a region GeoDataFrame: a named boundary polygon.  The geometry
library (shapely) is an external collaborator; its strict-containment test
`point.within(polygon)` is modelled as the boolean field `contains`. -/
structure NamedPoly where
  name : String
  contains : Loc → Bool

/-- Function `filter_grid_by_region` from `src/google_reviews_mapper/gps/tools.py`:
converts each `"lat, lon"` location to a `Point(lon, lat)`, keeps per boundary
the points within it, and concatenates the per-boundary results with
`pandas.concat`, which raises `ValueError: No objects to concatenate` when the
list of per-boundary frames is empty (i.e. when the region has no rows). -/
def filter_grid_by_region (locations : List Loc) (region_gdf : List NamedPoly) :
    Except String (List Loc) :=
  let points := locations.map (fun loc => (loc.2, loc.1))
  let gdfs_within_boundaries :=
    region_gdf.map (fun boundary => points.filter (fun p => boundary.contains p))
  if gdfs_within_boundaries.isEmpty then
    Except.error "ValueError: No objects to concatenate"
  else
    Except.ok gdfs_within_boundaries.flatten

/-- Counterexample to C5.  With an empty region (no polygons) and a nonempty
list of input points, `filter_grid_by_region` does not return an empty set: it
fails, because `pandas.concat` is called on the empty list of per-boundary
frames. -/
theorem filter_grid_empty_region_cex :
    filter_grid_by_region [(40, -111)] []
      = Except.error "ValueError: No objects to concatenate" := rfl

/-- C5 amended.  For every list of input points, `filter_grid_by_region`
applied to an empty region raises the `pandas.concat` error instead of
returning an empty result. -/
theorem filter_grid_empty_region_error (locations : List Loc) :
    filter_grid_by_region locations []
      = Except.error "ValueError: No objects to concatenate" := rfl

/-- C6.  A region consisting of a single polygon containing every input point
makes `filter_grid_by_region` return all input grid points (converted, as in
the source, to `(lon, lat)` geometry points). -/
theorem filter_grid_covering_polygon (locations : List Loc) (b : NamedPoly)
    (hcover : ∀ loc ∈ locations, b.contains (loc.2, loc.1) = true) :
    filter_grid_by_region locations [b]
      = Except.ok (locations.map (fun loc => (loc.2, loc.1))) := by
  rw [filter_grid_by_region]
  simp only [List.map_cons, List.map_nil, List.isEmpty_cons, if_neg,
    Bool.false_eq_true, not_false_eq_true, List.flatten_cons, List.flatten_nil,
    List.append_nil]
  congr 1
  refine List.filter_eq_self.mpr ?_
  intro p hp
  rw [List.mem_map] at hp
  obtain ⟨loc, hloc, rfl⟩ := hp
  exact hcover loc hloc

/-- Witness for C6 with a concrete all-covering polygon. -/
theorem filter_grid_covering_polygon_witness :
    (∀ loc ∈ [((40 : ℚ), (-111 : ℚ))],
      (NamedPoly.mk "ALL" (fun _ => true)).contains (loc.2, loc.1) = true)
    ∧ filter_grid_by_region [((40 : ℚ), (-111 : ℚ))] [⟨"ALL", fun _ => true⟩]
      = Except.ok [((-111 : ℚ), (40 : ℚ))] :=
  ⟨fun _ _ => rfl,
   filter_grid_covering_polygon [((40 : ℚ), (-111 : ℚ))] ⟨"ALL", fun _ => true⟩
     (fun _ _ => rfl)⟩

/-- The region-selection stage of `download_data` from
`src/google_reviews_mapper/get_restaurants.py`.  Modelled observables: the
argument check (`AttributeError` for a bad `city_county`), the grid
generation, the Python local `county_gdf` (assigned only inside the
`city_county == "county"` branch, so reading it in the `"city"` branch when
unassigned raises `UnboundLocalError`), the per-branch region filtering, and
the number of `filter_grid_by_region` calls performed (second component).
Excluded as I/O: directory creation, the HTTP fetch of the county geometry
(injected as `county_source`), plotting, and the places-API collection. -/
def download_data (api_key : String) (start_location : Loc)
    (radius iterations : ℤ) (city_county : String) (map_only : Bool)
    (M : RealModel) (county_source : List NamedPoly) :
    Except String (List Loc) × ℕ :=
  if ¬ (city_county = "city" ∨ city_county = "county") then
    (Except.error "AttributeError: city_county arg must be either city or county", 0)
  else
    let locations := grm.generate_grid_locs M start_location radius iterations
    let county_gdf : Option (List NamedPoly) :=
      if city_county = "county" then some county_source else none
    if city_county = "county" then
      match filter_grid_by_region locations county_source with
      | Except.error e => (Except.error e, 1)
      | Except.ok filtered_locs => (Except.ok filtered_locs, 1)
    else
      match county_gdf with
      | none =>
        (Except.error
          "UnboundLocalError: local variable county_gdf referenced before assignment", 0)
      | some gdf =>
        let city_gdf := gdf.filter (fun boundary => boundary.name == "SALT LAKE")
        match filter_grid_by_region locations city_gdf with
        | Except.error e => (Except.error e, 1)
        | Except.ok filtered_locs => (Except.ok filtered_locs, 1)

/-- C10.  Calling `download_data` with `city_county = "city"` always fails
with the unbound-local error on `county_gdf` (which only the `"county"`
branch assigns), before any region filtering happens: the filter-call counter
is `0`. -/
theorem download_data_city_unbound_local (api_key : String) (start_location : Loc)
    (radius iterations : ℤ) (map_only : Bool) (M : RealModel)
    (county_source : List NamedPoly) :
    download_data api_key start_location radius iterations "city" map_only
        M county_source
      = (Except.error
          "UnboundLocalError: local variable county_gdf referenced before assignment", 0) := by
  rfl

/-- A raw place record: one row of the CSV files read by
`clean_restaurant_data`, with the columns written by `download_data`
(`name, rating, user_ratings_total, vicinity, price_level, latitude,
longitude, types_str`). -/
structure PlaceRecord where
  name : String
  rating : ℚ
  user_ratings_total : ℚ
  vicinity : String
  price_level : ℚ
  latitude : ℚ
  longitude : ℚ
  types_str : String
deriving DecidableEq

/-- A place record with its `geometry` column
(`geopandas.points_from_xy(longitude, latitude)`, i.e. an `(x, y) = (lon, lat)`
point). -/
structure GeoRecord extends PlaceRecord where
  geometry : ℚ × ℚ
deriving DecidableEq

/-- The `geometry=geopandas.points_from_xy(all_data.longitude,
all_data.latitude)` step of `clean_restaurant_data`. -/
def points_from_xy (r : PlaceRecord) : GeoRecord :=
  { r with geometry := (r.longitude, r.latitude) }

/-- Models `shapely.set_precision(·, grid_size=0.001)` on one coordinate: snap to
the 0.001-degree grid (round to the nearest multiple of `1/1000`). -/
def set_precision001 (q : ℚ) : ℚ := round (q * 1000) / 1000

/-- Models `gdf.geometry = shapely.set_precision(gdf.geometry, grid_size=0.001)`:
snap the geometry column; the `latitude`/`longitude` columns are untouched. -/
def snap_geometry (r : GeoRecord) : GeoRecord :=
  { r with geometry := (set_precision001 r.geometry.1, set_precision001 r.geometry.2) }

/-- The key of `gdf.drop_duplicates(["name", "geometry"])`. -/
def dedup_key (r : GeoRecord) : String × ℚ × ℚ := (r.name, r.geometry)

/-- Models `pandas.DataFrame.drop_duplicates(subset=key)` with the default
`keep="first"`: scan the rows in order, keeping a row iff its key has not
been seen before (`seen` accumulates the keys of kept rows). -/
def drop_duplicates {α κ : Type} [DecidableEq κ] (key : α → κ) :
    List α → List κ → List α
  | [], _ => []
  | x :: xs, seen =>
    if key x ∈ seen then drop_duplicates key xs seen
    else x :: drop_duplicates key xs (key x :: seen)

/-- Spec-side formulation of the survivor policy "first-seen wins": the first
record is always retained unchanged, and every later record whose key equals
the key of an earlier record is removed. -/
def first_seen_dedup {α κ : Type} [DecidableEq κ] (key : α → κ) : List α → List α
  | [] => []
  | x :: xs => x :: first_seen_dedup key (xs.filter fun y => decide (key y ≠ key x))
termination_by l => l.length
decreasing_by
  simp only [List.length_cons]
  exact Nat.lt_succ_of_le (List.length_filter_le _ _)

/-- The snap-then-deduplicate stage of `clean_restaurant_data` (lines 43-45 of
`transform/tools.py`): build the geometry column, snap it to the
0.001-degree grid, and `drop_duplicates(["name", "geometry"])`. -/
def dedup_stage (records : List PlaceRecord) : List GeoRecord :=
  drop_duplicates dedup_key ((records.map points_from_xy).map snap_geometry) []

/-- Models `gdf.groupby("name")["stars"].transform(sum)` at row `r`, with
`stars = rating * user_ratings_total`: the chain-weighted score broadcast to
every member row of the group. -/
def chain_stars (gdf : List GeoRecord) (r : GeoRecord) : ℚ :=
  ((gdf.filter (fun s => s.name == r.name)).map
    (fun s => s.rating * s.user_ratings_total)).sum

/-- Models `gdf.groupby("name")["user_ratings_total"].transform(sum)` at row `r`. -/
def chain_ratings_total (gdf : List GeoRecord) (r : GeoRecord) : ℚ :=
  ((gdf.filter (fun s => s.name == r.name)).map
    (fun s => s.user_ratings_total)).sum

/-- Models `gdf["chain_wtd_avg_rating"] = gdf["chain_stars"] / gdf["chain_ratings_total"]`. -/
def chain_wtd_avg_rating (gdf : List GeoRecord) (r : GeoRecord) : ℚ :=
  chain_stars gdf r / chain_ratings_total gdf r

/-- Models `gdf.groupby("name")["name"].transform(count)` at row `r`. -/
def n_locations (gdf : List GeoRecord) (r : GeoRecord) : ℕ :=
  (gdf.filter (fun s => s.name == r.name)).length

/-- Python's `s.split(",")` for a single-character separator: splitting the
empty string yields `[""]` (never the empty list), and `"a,,b"` yields
`["a", "", "b"]`. -/
def split_on_comma (s : String) : List String :=
  (s.toList.foldr
    (fun c acc =>
      if c = ',' then [] :: acc
      else
        match acc with
        | g :: t => (c :: g) :: t
        | [] => [[c]])
    [[]]).map (fun g => String.mk g)

/-- Models `",".join(result["types"])` from `get_restaurants.py`: the category list
is serialised as a comma-joined string before the transform stage reads it. -/
def join_types (types : List String) : String := String.intercalate "," types

/-- Models `gdf["types_str"].apply(lambda x: x.split(",")[0])`: the first element of
the split.  Python's `str.split` always returns at least one element, so the
`[0]` indexing never fails; the `headD` default is dead code kept only to
make the function total syntactically. -/
def primary_type (types_str : String) : String :=
  (split_on_comma types_str).headD ""

/-- The `primary_type` allow-list of `clean_restaurant_data`. -/
def type_allow_list : List String :=
  ["restaurant", "meal_takeaway", "bakery", "cafe", "meal_delivery"]

/-- Constant `airport_loc = shapely.geometry.Point(-111.9768056, 40.8015768)`. -/
def airport_loc : ℚ × ℚ := (-111.9768056, 40.8015768)

/-- A fully derived row of `clean_restaurant_data`'s output. -/
structure CleanRecord extends GeoRecord where
  stars : ℚ
  primary_type : String
  n_locations : ℕ
  chain_stars : ℚ
  chain_ratings_total : ℚ
  chain_wtd_avg_rating : ℚ
  in_airport : Bool
deriving DecidableEq

/-- The in-memory transform of `clean_restaurant_data`
(`transform/tools.py`, lines 36-67), file I/O excluded: merge the raw rows,
build and snap the geometry, drop duplicate `(name, geometry)` rows keeping
the first, derive the per-row and per-chain columns, and keep only rows whose
`primary_type` is in the allow-list.  (`in_airport` compares the squared
euclidean distance with `0.02²`, equivalent to the source's
`distance(airport_loc) <= 0.02`; the source assigns this column after the
category filter, which yields the same rows.) -/
def clean_restaurant_data (records : List PlaceRecord) : List CleanRecord :=
  let gdf := dedup_stage records
  let enriched : List CleanRecord := gdf.map (fun r =>
    { toGeoRecord := r
      stars := r.rating * r.user_ratings_total
      primary_type := primary_type r.types_str
      n_locations := n_locations gdf r
      chain_stars := chain_stars gdf r
      chain_ratings_total := chain_ratings_total gdf r
      chain_wtd_avg_rating := chain_wtd_avg_rating gdf r
      in_airport := decide ((r.geometry.1 - airport_loc.1) ^ 2
        + (r.geometry.2 - airport_loc.2) ^ 2 ≤ (0.02 : ℚ) ^ 2) })
  enriched.filter (fun r => decide (r.primary_type ∈ type_allow_list))

/-- Scan `drop_duplicates` only removes rows: every output row is an input row. -/
theorem drop_duplicates_subset {α κ : Type} [DecidableEq κ] (key : α → κ) :
    ∀ (l : List α) (seen : List κ) (x : α),
      x ∈ drop_duplicates key l seen → x ∈ l := by
  intro l
  induction l with
  | nil => intro seen x hx; exact absurd hx (List.not_mem_nil x)
  | cons a t ih =>
    intro seen x hx
    rw [drop_duplicates] at hx
    by_cases ha : key a ∈ seen
    · rw [if_pos ha] at hx
      exact List.mem_cons_of_mem a (ih seen x hx)
    · rw [if_neg ha] at hx
      rcases List.mem_cons.mp hx with h | h
      · exact h ▸ List.mem_cons_self a t
      · exact List.mem_cons_of_mem a (ih _ x h)

/-- Unfolding equation: `first_seen_dedup` on a cons. -/
theorem first_seen_dedup_cons {α κ : Type} [DecidableEq κ] (key : α → κ)
    (x : α) (xs : List α) :
    first_seen_dedup key (x :: xs)
      = x :: first_seen_dedup key (xs.filter fun y => decide (key y ≠ key x)) := by
  rw [first_seen_dedup.eq_def]

/-- The pandas scan with a seen-set is the first-seen-wins policy on the rows
whose key is not yet in `seen`. -/
theorem drop_duplicates_eq_first_seen {α κ : Type} [DecidableEq κ] (key : α → κ)
    (l : List α) : ∀ seen : List κ,
    drop_duplicates key l seen
      = first_seen_dedup key (l.filter fun y => decide (key y ∉ seen)) := by
  induction l with
  | nil =>
    intro seen
    rw [drop_duplicates, List.filter_nil, first_seen_dedup.eq_def]
  | cons x xs ih =>
    intro seen
    rw [drop_duplicates, List.filter_cons]
    by_cases hx : key x ∈ seen
    · have hd1 : decide (key x ∉ seen) = false := by simp [hx]
      rw [if_pos hx, hd1]
      simp only [Bool.false_eq_true, if_false]
      exact ih seen
    · have hd1 : decide (key x ∉ seen) = true := by simp [hx]
      rw [if_neg hx, hd1, if_pos rfl, first_seen_dedup_cons, List.filter_filter]
      have hpred : ∀ y ∈ xs,
          (decide (key y ≠ key x) && decide (key y ∉ seen))
            = decide (key y ∉ key x :: seen) := by
        intro y _
        by_cases h1 : key y = key x <;> by_cases h2 : key y ∈ seen <;>
          simp [h1, h2, List.mem_cons]
      rw [List.filter_congr hpred, ih (key x :: seen)]

/-- C7.  The normaliser's deduplication stage snaps the geometry to the
0.001-degree grid and then removes exactly those rows whose
`(name, geometry)` key equals the key of an earlier row, retaining the
earliest row of each key unchanged (pandas `keep="first"`); moreover every
surviving row's key coordinate is its 0.001-snapped longitude/latitude. -/
theorem clean_dedup_first_seen_wins (records : List PlaceRecord) :
    dedup_stage records
      = first_seen_dedup dedup_key ((records.map points_from_xy).map snap_geometry)
    ∧ ∀ r ∈ dedup_stage records,
        r.geometry = (set_precision001 r.longitude, set_precision001 r.latitude) := by
  constructor
  · rw [dedup_stage, drop_duplicates_eq_first_seen]
    congr 1
    simp
  · intro r hr
    have hr' := drop_duplicates_subset dedup_key _ _ r hr
    rw [List.mem_map] at hr'
    obtain ⟨s, hs, rfl⟩ := hr'
    rw [List.mem_map] at hs
    obtain ⟨p, hp, rfl⟩ := hs
    rfl

/-- Witness for C7 at a concrete pair of rows whose snapped keys collide. -/
theorem clean_dedup_first_seen_wins_witness :
    dedup_stage
        [{ name := "Cafe X", rating := 4, user_ratings_total := 10,
           vicinity := "a", price_level := 1, latitude := 1.0004,
           longitude := 2, types_str := "cafe" },
         { name := "Cafe X", rating := 3, user_ratings_total := 7,
           vicinity := "b", price_level := 1, latitude := 1.0001,
           longitude := 2, types_str := "cafe" }]
      = first_seen_dedup dedup_key
          (([{ name := "Cafe X", rating := 4, user_ratings_total := 10,
               vicinity := "a", price_level := 1, latitude := 1.0004,
               longitude := 2, types_str := "cafe" },
             { name := "Cafe X", rating := 3, user_ratings_total := 7,
               vicinity := "b", price_level := 1, latitude := 1.0001,
               longitude := 2, types_str := "cafe" }].map points_from_xy).map
            snap_geometry) :=
  (clean_dedup_first_seen_wins _).1

/-- C8.  The aggregator computes, per identity name, the chain-weighted score
as the group sum of `rating * user_ratings_total`, the chain rating total as
the group sum of rating counts, and the chain average rating as their
quotient; all three are broadcast unchanged to every row of the same group. -/
theorem chain_aggregation (gdf : List GeoRecord) (r s : GeoRecord)
    (hname : s.name = r.name) :
    chain_stars gdf r
      = ((gdf.filter (fun t => t.name == r.name)).map
          (fun t => t.rating * t.user_ratings_total)).sum
    ∧ chain_ratings_total gdf r
      = ((gdf.filter (fun t => t.name == r.name)).map
          (fun t => t.user_ratings_total)).sum
    ∧ chain_wtd_avg_rating gdf r = chain_stars gdf r / chain_ratings_total gdf r
    ∧ chain_stars gdf s = chain_stars gdf r
    ∧ chain_ratings_total gdf s = chain_ratings_total gdf r
    ∧ chain_wtd_avg_rating gdf s = chain_wtd_avg_rating gdf r := by
  have h1 : chain_stars gdf s = chain_stars gdf r := by
    rw [chain_stars, chain_stars, hname]
  have h2 : chain_ratings_total gdf s = chain_ratings_total gdf r := by
    rw [chain_ratings_total, chain_ratings_total, hname]
  refine ⟨rfl, rfl, rfl, h1, h2, ?_⟩
  rw [chain_wtd_avg_rating, chain_wtd_avg_rating, h1, h2]

/-- The three "ChainX" rows of the spec's aggregation example. -/
def chainX1 : GeoRecord :=
  { name := "ChainX", rating := 4, user_ratings_total := 10, vicinity := "",
    price_level := 0, latitude := 0, longitude := 0, types_str := "restaurant",
    geometry := (0, 0) }

def chainX2 : GeoRecord := { chainX1 with rating := 5, user_ratings_total := 20 }

def chainX3 : GeoRecord := { chainX1 with rating := 3, user_ratings_total := 30 }

def chainX_gdf : List GeoRecord := [chainX1, chainX2, chainX3]

/-- Witness for C8: on the ChainX example (counts 10/20/30, ratings 4/5/3)
the chain-weighted score is `230`, the rating total `60`, the average
`23/6 ≈ 3.833`, and the values broadcast to the other member rows. -/
theorem chain_aggregation_witness :
    chainX2.name = chainX1.name
    ∧ chain_stars chainX_gdf chainX1 = 230
    ∧ chain_ratings_total chainX_gdf chainX1 = 60
    ∧ chain_wtd_avg_rating chainX_gdf chainX1 = 23 / 6
    ∧ chain_wtd_avg_rating chainX_gdf chainX2 = chain_wtd_avg_rating chainX_gdf chainX1 :=
  ⟨rfl,
   by norm_num [chain_stars, chainX_gdf, chainX1, chainX2, chainX3],
   by norm_num [chain_ratings_total, chainX_gdf, chainX1, chainX2, chainX3],
   by norm_num [chain_wtd_avg_rating, chain_stars, chain_ratings_total,
     chainX_gdf, chainX1, chainX2, chainX3],
   (chain_aggregation chainX_gdf chainX1 chainX2 rfl).2.2.2.2.2⟩

/-- Counterexample to C9.  For a record whose category list is empty, the
upstream join produces `types_str = ""`, and the normaliser computes
`"".split(",")[0] = ""` — an ordinary value, not a `MalformedRecord` (or any)
error. -/
theorem primary_type_empty_cex :
    join_types [] = "" ∧ primary_type (join_types []) = "" := ⟨rfl, rfl⟩

/-- C9 amended.  On an empty category list the normaliser computes
`primary_type = ""` without error; `""` is not in the category allow-list, so
such a record is silently dropped by the final filter — every record in
`clean_restaurant_data`'s output has an allow-listed `primary_type`. -/
theorem primary_type_empty_no_error :
    primary_type (join_types []) = ""
    ∧ "" ∉ type_allow_list
    ∧ ∀ (records : List PlaceRecord) (r : CleanRecord),
        r ∈ clean_restaurant_data records → r.primary_type ∈ type_allow_list := by
  refine ⟨rfl, by decide, ?_⟩
  intro records r hr
  rw [clean_restaurant_data] at hr
  exact of_decide_eq_true (List.mem_filter.mp hr).2

/-- A single well-formed input row used by the C9 witness. -/
def wrec : PlaceRecord :=
  { name := "Solo Diner", rating := 4, user_ratings_total := 10, vicinity := "v",
    price_level := 1, latitude := 1, longitude := 2, types_str := "restaurant" }

/-- The row `clean_restaurant_data` derives from `wrec`. -/
def wout : CleanRecord :=
  { name := "Solo Diner", rating := 4, user_ratings_total := 10, vicinity := "v",
    price_level := 1, latitude := 1, longitude := 2, types_str := "restaurant",
    geometry := (2, 1), stars := 40, primary_type := "restaurant",
    n_locations := 1, chain_stars := 40, chain_ratings_total := 10,
    chain_wtd_avg_rating := 4, in_airport := false }

/-- Witness for the amended C9: a concrete record surviving the pipeline has
an allow-listed primary type. -/
theorem primary_type_empty_no_error_witness :
    wout.primary_type ∈ type_allow_list :=
  primary_type_empty_no_error.2.2 [wrec] wout (by
    have h : clean_restaurant_data [wrec] = [wout] := by
      have hpt : primary_type "restaurant" = "restaurant" := rfl
      norm_num [clean_restaurant_data, dedup_stage, drop_duplicates,
        points_from_xy, snap_geometry, set_precision001, dedup_key, chain_stars,
        chain_ratings_total, chain_wtd_avg_rating, n_locations, hpt,
        type_allow_list, airport_loc, wrec, wout, round_eq]
    rw [h]
    exact List.mem_singleton.mpr rfl)
